import Mathlib

/-!
Shallow embedding of `src/src/capture.c` (thread-safe wrapper for libxdtusb
camera operations; single pre-allocated frame buffer, blocking capture).

Modelling conventions:
* The module-level globals of `capture.c` become the fields of `CState`.
  The opaque `xdtusb_device_t*` handle is `Option Unit` (`none` = NULL).
  The malloc'd byte buffer `g_frame_data` is `Option (List Nat)` (`none` =
  NULL; list entries are the byte values, list length is the allocation size).
* External driver behaviour (which libxdtusb calls succeed, whether/when the
  frame callback fires) is supplied as an explicit oracle record; every
  libxdtusb call the code makes (plus libc `free`) is recorded in an event
  trace, so "no hardware interaction" and "exactly one commit / stop" are
  provable statements about the trace.
* C unsigned arithmetic: `g_frame_width * g_frame_height` is `uint32_t`
  arithmetic, so it is taken modulo 2^32 before the multiplication by
  `sizeof(xdtusb_pixel_t) = 2` widens to `size_t` (modelled as 64-bit,
  wide enough that no further wrap occurs for 32-bit factors).
* Concurrency: `capture_frame` arms (clears the ready flag), issues driver
  calls, then waits on the condition variable.  The delivery thread's
  callback invocation is interleaved at a schedule point chosen by the
  oracle (`FireTime.beforeWait`: the callback runs and returns before the
  controller first tests `g_frame_ready` under the mutex;
  `FireTime.duringWait`: the controller is already blocked in
  `pthread_cond_timedwait` when the callback runs).  Both sides touch the
  shared state only with the mutex held, so each critical section is one
  atomic step of the model.
-/

/-- One libxdtusb driver call (plus libc `free`) as recorded in a trace. -/
inductive Ev where
  | xInit
  | pollDevices
  | xExit
  | deviceOpen
  | deviceGetInfo
  | getMaxDimensions
  | deviceClose
  | setSeqParams
  | setAcqMode
  | startStreaming
  | issueSwTrigger
  | stopStreaming
  | framebufGetDimensions
  | framebufGetData
  | framebufCommit
  | freeBuf
  deriving DecidableEq, Repr

/-- The module-level state of `capture.c` (its static globals). -/
structure CState where
  g_device : Option Unit
  g_initialized : Bool
  g_frame_width : Nat
  g_frame_height : Nat
  g_pixel_size : Nat
  g_frame_data : Option (List Nat)
  g_frame_capacity : Nat
  g_frame_size : Nat
  g_frame_ready : Bool
  deriving DecidableEq, Repr

/-- Initial values of the globals (`capture.c` lines 19-33). -/
def initialCState : CState :=
  { g_device := none
    g_initialized := false
    g_frame_width := 0
    g_frame_height := 0
    g_pixel_size := 2
    g_frame_data := none
    g_frame_capacity := 0
    g_frame_size := 0
    g_frame_ready := false }

/-- A frame as delivered by the driver to the callback: the dimension
metadata read via `XDTUSB_FramebufGetDimensions` and the pixel bytes read
through the pointer from `XDTUSB_FramebufGetData` (a function from byte
offset to byte value, modelling a pointer into driver-owned memory).
The dimension fields of `xdtusb_frame_dimensions_t` (`xdtusb.h` lines
274-275) are `uint16_t`, so every frame the driver can actually deliver
satisfies `width < 65536` and `height < 65536`; theorems that depend on
this range carry it as explicit hypotheses. -/
structure Frame where
  width : Nat
  height : Nat
  data : Nat → Nat

/-- `memcpy(dst, src, n)` where `dst` is an allocated buffer and `src` a
pointer into driver memory: the first `n` bytes of `dst` are replaced by
`src[0..n)`. -/
def memcpyBytes (dst : List Nat) (src : Nat → Nat) (n : Nat) : List Nat :=
  (List.range n).map src ++ dst.drop n

/-- `sizeof(xdtusb_pixel_t)` (`xdtusb_pixel_t` is `uint16_t`). -/
def pixelBytes : Nat := 2

/-- `frame_callback` (`capture.c` lines 39-76).  Reads dimensions and data
pointer, then under the mutex stores the metadata, computes
`g_frame_size = g_frame_width * g_frame_height * sizeof(xdtusb_pixel_t)`
(in `uint32_t` arithmetic for the first product), copies the frame and sets
the ready flag when the pre-allocated buffer exists and is large enough,
and finally commits the framebuffer back to the device. -/
def frame_callback (s : CState) (fr : Frame) : CState × List Ev :=
  let sz : Nat := ((fr.width * fr.height) % 2 ^ 32) * pixelBytes
  let s1 : CState :=
    { s with g_frame_width := fr.width, g_frame_height := fr.height, g_frame_size := sz }
  let s2 : CState :=
    match s1.g_frame_data with
    | some buf =>
        if sz ≤ s1.g_frame_capacity then
          { s1 with
              g_frame_data := some (memcpyBytes buf fr.data sz)
              g_frame_ready := true }
        else s1
    | none => s1
  (s2, [Ev.framebufGetDimensions, Ev.framebufGetData, Ev.framebufCommit])

/-- Oracle for the driver calls `init_capture_device` makes. -/
structure InitDriver where
  initOk : Bool
  pollOk : Bool
  numDevices : Nat
  openOk : Bool
  maxDimsOk : Bool
  maxWidth : Nat
  maxHeight : Nat
  mallocOk : Bool

/-- `init_capture_device` (`capture.c` lines 78-158).  Returns the C return
value, the new global state, and the trace of driver calls made.  Note the
code's exact effect on the globals on each failure path: `g_device` is set
as soon as a device is picked from the poll list and is not reset on later
failures, and `g_frame_capacity` is assigned before the `malloc` whose
failure aborts initialization. -/
def init_capture_device (s : CState) (d : InitDriver) : Int × CState × List Ev :=
  if s.g_initialized then (0, s, [])
  else if ¬ d.initOk then (-3, s, [Ev.xInit])
  else if ¬ d.pollOk then (-3, s, [Ev.xInit, Ev.pollDevices, Ev.xExit])
  else if d.numDevices = 0 then (-1, s, [Ev.xInit, Ev.pollDevices, Ev.xExit])
  else
    let s := { s with g_device := some () }
    if ¬ d.openOk then
      (-2, s, [Ev.xInit, Ev.pollDevices, Ev.deviceOpen, Ev.xExit])
    else if ¬ d.maxDimsOk then
      (-6, s, [Ev.xInit, Ev.pollDevices, Ev.deviceOpen, Ev.deviceGetInfo,
               Ev.getMaxDimensions, Ev.deviceClose, Ev.xExit])
    else
      let cap : Nat := ((d.maxWidth * d.maxHeight) % 2 ^ 32) * pixelBytes
      let s := { s with g_frame_capacity := cap }
      if ¬ d.mallocOk then
        (-7, { s with g_frame_data := none },
         [Ev.xInit, Ev.pollDevices, Ev.deviceOpen, Ev.deviceGetInfo,
          Ev.getMaxDimensions, Ev.deviceClose, Ev.xExit])
      else
        (0, { s with g_frame_data := some (List.replicate cap 0), g_initialized := true },
         [Ev.xInit, Ev.pollDevices, Ev.deviceOpen, Ev.deviceGetInfo,
          Ev.getMaxDimensions])

/-- `struct timespec`. -/
structure Timespec where
  tv_sec : Nat
  tv_nsec : Nat
  deriving DecidableEq, Repr

/-- The deadline computation of `capture_frame` (`capture.c` lines 223-229):
`now + exposure_ms/1000 + 10` seconds, `+(exposure_ms%1000)*1000000`
nanoseconds, with the explicit carry normalisation. -/
def compute_deadline (now : Timespec) (exposure_ms : Nat) : Timespec :=
  let sec := now.tv_sec + exposure_ms / 1000 + 10
  let nsec := now.tv_nsec + (exposure_ms % 1000) * 1000000
  if nsec ≥ 1000000000 then { tv_sec := sec + 1, tv_nsec := nsec - 1000000000 }
  else { tv_sec := sec, tv_nsec := nsec }

/-- Total nanoseconds represented by a `timespec`. -/
def Timespec.toNanos (t : Timespec) : Nat :=
  t.tv_sec * 1000000000 + t.tv_nsec

/-- Schedule point at which the delivery thread runs `frame_callback`
relative to the controller's wait (`capture.c` lines 231-241). -/
inductive FireTime where
  | beforeWait
  | duringWait
  deriving DecidableEq, Repr

/-- Oracle for one `capture_frame` call: which driver calls succeed, and
whether/when the driver's delivery thread invokes the callback. -/
structure CaptureDriver where
  setSeqOk : Bool
  setAcqOk : Bool
  startOk : Bool
  triggerOk : Bool
  delivery : Option (Frame × FireTime)

/-- Result of a `capture_frame` call: the C return value, the final global
state, the trace of driver calls (controller and callback), and the wait
deadline if the call reached the wait. -/
structure CaptureResult where
  ret : Int
  state : CState
  trace : List Ev
  deadline : Option Timespec

/-- `capture_frame` (`capture.c` lines 160-254).  Checks initialization and
the 10..10000 ms exposure bounds, arms (clears `g_frame_ready` under the
mutex), programs sequence parameters and acquisition mode, starts
streaming, issues the software trigger, computes the deadline, then waits
on the condition until `g_frame_ready` or the deadline; the callback, when
the oracle delivers a frame, runs at its scheduled point.  Every exit path
after a successful `XDTUSB_DeviceStartStreaming` performs exactly one
`XDTUSB_DeviceStopStreaming`. -/
def capture_frame (s : CState) (exposure_ms : Nat) (d : CaptureDriver)
    (now : Timespec) : CaptureResult :=
  if s.g_initialized = false ∨ s.g_device = none then
    { ret := -1, state := s, trace := [], deadline := none }
  else if exposure_ms < 10 ∨ 10000 < exposure_ms then
    { ret := -2, state := s, trace := [], deadline := none }
  else
    let s := { s with g_frame_ready := false }
    if ¬ d.setSeqOk then
      { ret := -2, state := s, trace := [Ev.setSeqParams], deadline := none }
    else if ¬ d.setAcqOk then
      { ret := -2, state := s, trace := [Ev.setSeqParams, Ev.setAcqMode], deadline := none }
    else if ¬ d.startOk then
      { ret := -4, state := s,
        trace := [Ev.setSeqParams, Ev.setAcqMode, Ev.startStreaming], deadline := none }
    else if ¬ d.triggerOk then
      { ret := -5, state := s,
        trace := [Ev.setSeqParams, Ev.setAcqMode, Ev.startStreaming,
                  Ev.issueSwTrigger, Ev.stopStreaming],
        deadline := none }
    else
      let pre : List Ev := [Ev.setSeqParams, Ev.setAcqMode, Ev.startStreaming,
                            Ev.issueSwTrigger]
      let dl := compute_deadline now exposure_ms
      match d.delivery with
      | some (fr, FireTime.beforeWait) =>
          let r := frame_callback s fr
          if r.1.g_frame_ready then
            { ret := 0, state := r.1, trace := pre ++ r.2 ++ [Ev.stopStreaming],
              deadline := some dl }
          else
            { ret := -3, state := r.1, trace := pre ++ r.2 ++ [Ev.stopStreaming],
              deadline := some dl }
      | some (fr, FireTime.duringWait) =>
          let r := frame_callback s fr
          if r.1.g_frame_ready then
            { ret := 0, state := r.1, trace := pre ++ r.2 ++ [Ev.stopStreaming],
              deadline := some dl }
          else
            { ret := -3, state := r.1, trace := pre ++ r.2 ++ [Ev.stopStreaming],
              deadline := some dl }
      | none =>
          { ret := -3, state := s, trace := pre ++ [Ev.stopStreaming],
            deadline := some dl }

/-- The caller-side out-parameter memory of `get_frame_data`: each field is
`some v` once written (a NULL pointer is modelled by the corresponding
`passed` flag being `false`, in which case the field keeps its prior
content). -/
structure OutPtrs where
  width : Option Nat
  height : Option Nat
  pixel_size : Option Nat
  data : Option (Option (List Nat))
  size : Option Nat
  deriving DecidableEq, Repr

/-- Out-parameter memory before the call, all unwritten. -/
def noOut : OutPtrs :=
  { width := none, height := none, pixel_size := none, data := none, size := none }

/-- `get_frame_data` (`capture.c` lines 256-268).  Under the mutex, writes
the current snapshot of the globals through each non-NULL out pointer
(`pw pH pp pd ps` say which of the five pointers are non-NULL) and leaves
the memory behind NULL pointers untouched.  The global state is not
modified. -/
def get_frame_data (s : CState) (pw pH pp pd ps : Bool) (out : OutPtrs) : OutPtrs :=
  let out := if pw then { out with width := some s.g_frame_width } else out
  let out := if pH then { out with height := some s.g_frame_height } else out
  let out := if pp then { out with pixel_size := some s.g_pixel_size } else out
  let out := if pd then { out with data := some s.g_frame_data } else out
  if ps then { out with size := some s.g_frame_size } else out

/-- `cleanup_capture_device` (`capture.c` lines 270-294).  No-op when not
initialized; otherwise stops streaming and closes the device (when the
handle is non-NULL), frees the frame buffer (when allocated), exits
libxdtusb and clears `g_initialized`.  Returns the new state and trace. -/
def cleanup_capture_device (s : CState) : CState × List Ev :=
  if s.g_initialized = false then (s, [])
  else
    let devCalls : List Ev :=
      match s.g_device with
      | some _ => [Ev.stopStreaming, Ev.deviceClose]
      | none => []
    let freeCalls : List Ev :=
      match s.g_frame_data with
      | some _ => [Ev.freeBuf]
      | none => []
    ({ s with g_device := none, g_frame_data := none, g_initialized := false },
     devCalls ++ freeCalls ++ [Ev.xExit])

/-- One externally observable operation on the module, for reachability. -/
inductive Op where
  | initDev (d : InitDriver)
  | capture (exposure_ms : Nat) (d : CaptureDriver) (now : Timespec)
  | callback (fr : Frame)
  | getData (pw pH pp pd ps : Bool)
  | cleanup

/-- State transition of one operation (traces and return values dropped). -/
def stepOp (s : CState) : Op → CState
  | Op.initDev d => (init_capture_device s d).2.1
  | Op.capture e d now => (capture_frame s e d now).state
  | Op.callback fr => (frame_callback s fr).1
  | Op.getData _ _ _ _ _ => s
  | Op.cleanup => (cleanup_capture_device s).1

/-- Run a sequence of operations from a state. -/
def runOps (s : CState) : List Op → CState
  | [] => s
  | op :: rest => runOps (stepOp s op) rest

/-- The buffer-length invariant: whenever the frame buffer is allocated,
its allocation size is exactly `g_frame_capacity`. -/
def BufLenInv (s : CState) : Prop :=
  ∀ buf : List Nat, s.g_frame_data = some buf → buf.length = s.g_frame_capacity

/-- Concrete initialized state: device open, 8-byte buffer allocated
(capacity for a 2x2 frame of 2-byte pixels), no frame yet. -/
def sReady8 : CState :=
  { g_device := some ()
    g_initialized := true
    g_frame_width := 0
    g_frame_height := 0
    g_pixel_size := 2
    g_frame_data := some (List.replicate 8 0)
    g_frame_capacity := 8
    g_frame_size := 0
    g_frame_ready := false }

/-- Init oracle where every driver call succeeds, one device is found, and
the sensor reports 2x2 maximum dimensions. -/
def dInitAll : InitDriver :=
  { initOk := true, pollOk := true, numDevices := 1, openOk := true,
    maxDimsOk := true, maxWidth := 2, maxHeight := 2, mallocOk := true }

/-- Capture oracle where every driver call succeeds but the callback never
fires. -/
def dCapNone : CaptureDriver :=
  { setSeqOk := true, setAcqOk := true, startOk := true, triggerOk := true,
    delivery := none }

/-- A 2x2 frame of constant pixel bytes (8 bytes, fits `sReady8`). -/
def fr2 : Frame := { width := 2, height := 2, data := fun _ => 7 }

/-- A 3x3 frame (18 bytes, oversized for `sReady8`, no uint32 overflow). -/
def fr3 : Frame := { width := 3, height := 3, data := fun _ => 0 }

/-- Capture oracle delivering `fr2` before the controller reaches the wait
(the classic lost-wakeup race schedule). -/
def dCapEarly : CaptureDriver :=
  { setSeqOk := true, setAcqOk := true, startOk := true, triggerOk := true,
    delivery := some (fr2, FireTime.beforeWait) }

/-- Capture oracle delivering the oversized (but non-overflowing) frame
during the wait. -/
def dCapOver : CaptureDriver :=
  { setSeqOk := true, setAcqOk := true, startOk := true, triggerOk := true,
    delivery := some (fr3, FireTime.duringWait) }

/-- A concrete wall-clock instant. -/
def t0 : Timespec := { tv_sec := 0, tv_nsec := 0 }

/-- The state after a successful `init_capture_device` on a fresh process,
before any capture. -/
def sAfterInit : CState := (init_capture_device initialCState dInitAll).2.1

/-- Operation sequence: successful init, then one oversized delivery. -/
def opsOversized : List Op := [Op.initDev dInitAll, Op.callback fr3]

/-- Trace of `frame_callback` is the same on every branch: read dimensions,
read data pointer, commit. -/
theorem frame_callback_trace (s : CState) (fr : Frame) :
    (frame_callback s fr).2 =
      [Ev.framebufGetDimensions, Ev.framebufGetData, Ev.framebufCommit] := rfl

/-- `memcpy` into a buffer at least `n` bytes long preserves its length. -/
theorem memcpyBytes_length (dst : List Nat) (src : Nat → Nat) (n : Nat)
    (h : n ≤ dst.length) : (memcpyBytes dst src n).length = dst.length := by
  simp [memcpyBytes]
  omega

/-- When the pre-allocated buffer exists and the computed frame size fits,
`frame_callback` sets the ready flag. -/
theorem frame_callback_sets_ready (s : CState) (buf : List Nat) (fr : Frame)
    (hbuf : s.g_frame_data = some buf)
    (hfit : ((fr.width * fr.height) % 2 ^ 32) * pixelBytes ≤ s.g_frame_capacity) :
    (frame_callback s fr).1.g_frame_ready = true := by
  simp only [frame_callback, hbuf]
  rw [if_pos hfit]

/-- When the computed frame size exceeds capacity (and the `uint32_t`
product does not wrap), `frame_callback` copies nothing and leaves the
ready flag as it was. -/
theorem frame_callback_oversized (s : CState) (fr : Frame)
    (hnoovf : fr.width * fr.height < 2 ^ 32)
    (hbig : s.g_frame_capacity < fr.width * fr.height * pixelBytes) :
    (frame_callback s fr).1.g_frame_data = s.g_frame_data ∧
    (frame_callback s fr).1.g_frame_ready = s.g_frame_ready := by
  have hmod : (fr.width * fr.height) % 2 ^ 32 = fr.width * fr.height :=
    Nat.mod_eq_of_lt hnoovf
  have hnle : ¬ (((fr.width * fr.height) % 2 ^ 32) * pixelBytes ≤ s.g_frame_capacity) := by
    rw [hmod]
    exact Nat.not_le.mpr hbig
  cases hd : s.g_frame_data with
  | none => simp [frame_callback, hd]
  | some buf =>
      simp only [frame_callback, hd]
      rw [if_neg hnle]
      exact ⟨rfl, rfl⟩

/-- Claim C3: every invocation of `frame_callback`, whichever internal
branch is taken (successful copy, oversized frame, or unallocated buffer),
performs exactly one `XDTUSB_FramebufCommit` call before returning. -/
theorem claim3_callback_commits_exactly_once (s : CState) (fr : Frame) :
    ((frame_callback s fr).2.count Ev.framebufCommit) = 1 := by
  rw [frame_callback_trace]
  decide

/-- Claim C8: `cleanup_capture_device` is idempotent: immediately re-running
it after a first call leaves the state of the first call unchanged and
performs no driver call and no `free`. -/
theorem claim8_cleanup_idempotent (s : CState) :
    cleanup_capture_device (cleanup_capture_device s).1 =
      ((cleanup_capture_device s).1, []) := by
  cases hinit : s.g_initialized with
  | false => simp [cleanup_capture_device, hinit]
  | true => simp [cleanup_capture_device, hinit]

/-- Claim C9: calling `init_capture_device` when the device is already
initialized returns 0 immediately, invokes no driver operation, and leaves
the whole module state unchanged. -/
theorem claim9_init_already_initialized (s : CState) (d : InitDriver)
    (h : s.g_initialized = true) :
    init_capture_device s d = (0, s, []) := by
  simp [init_capture_device, h]

/-- Witness for claim C9 at a concrete initialized state and oracle. -/
theorem claim9_init_already_initialized_witness :
    sReady8.g_initialized = true ∧ init_capture_device sReady8 dInitAll = (0, sReady8, []) :=
  ⟨rfl, claim9_init_already_initialized sReady8 dInitAll rfl⟩

/-- Claim C10: `get_frame_data` writes through exactly the non-NULL out
pointers, each receiving the corresponding field of the current state
snapshot, and leaves the memory behind each NULL pointer untouched. -/
theorem claim10_get_frame_data_null_tolerant (s : CState)
    (pw pH pp pd ps : Bool) (out : OutPtrs) :
    get_frame_data s pw pH pp pd ps out =
      { width := if pw then some s.g_frame_width else out.width
        height := if pH then some s.g_frame_height else out.height
        pixel_size := if pp then some s.g_pixel_size else out.pixel_size
        data := if pd then some s.g_frame_data else out.data
        size := if ps then some s.g_frame_size else out.size } := by
  cases pw <;> cases pH <;> cases pp <;> cases pd <;> cases ps <;>
    simp [get_frame_data]

/-- Claim C5: on an initialized device, every exposure outside the
inclusive 10..10000 ms bounds makes `capture_frame` return -2
(`InvalidParameter`) with an empty driver-call trace and the module state
unchanged. -/
theorem claim5_invalid_exposure_rejected (s : CState) (e : Nat)
    (d : CaptureDriver) (now : Timespec)
    (hinit : s.g_initialized = true) (hdev : s.g_device ≠ none)
    (he : e < 10 ∨ 10000 < e) :
    capture_frame s e d now =
      { ret := -2, state := s, trace := [], deadline := none } := by
  rcases he with h | h <;> simp [capture_frame, hinit, hdev, h]

/-- Witness for claim C5 at exposure 10001 on a concrete initialized
state. -/
theorem claim5_invalid_exposure_rejected_witness :
    (10000 < 10001 ∨ (10001 : Nat) < 10) ∧
    capture_frame sReady8 10001 dCapNone t0 =
      { ret := -2, state := sReady8, trace := [], deadline := none } :=
  ⟨Or.inl (by decide),
   claim5_invalid_exposure_rejected sReady8 10001 dCapNone t0 rfl
     (by decide) (Or.inr (by decide))⟩

/-- Claim C1: the readiness flag is cleared (armed) strictly before the
software trigger, which is issued strictly before the controller waits;
hence a callback that fires and signals at any schedule point after arming
(before the wait starts or during it) is never lost, and `capture_frame`
returns success with the ready flag set. -/
theorem claim1_no_lost_wakeup (s : CState) (buf : List Nat) (fr : Frame)
    (t : FireTime) (e : Nat) (d : CaptureDriver) (now : Timespec)
    (hinit : s.g_initialized = true) (hdev : s.g_device ≠ none)
    (hbuf : s.g_frame_data = some buf)
    (hfit : ((fr.width * fr.height) % 2 ^ 32) * pixelBytes ≤ s.g_frame_capacity)
    (hlo : 10 ≤ e) (hhi : e ≤ 10000)
    (hseq : d.setSeqOk = true) (hacq : d.setAcqOk = true)
    (hstart : d.startOk = true) (htrig : d.triggerOk = true)
    (hdel : d.delivery = some (fr, t)) :
    (capture_frame s e d now).ret = 0 ∧
    (capture_frame s e d now).state.g_frame_ready = true := by
  have hb : ¬ (e < 10 ∨ 10000 < e) := by omega
  have hr : (frame_callback
      { s with g_initialized := true, g_frame_ready := false } fr).1.g_frame_ready = true :=
    frame_callback_sets_ready _ buf fr hbuf hfit
  cases t <;>
    simp [capture_frame, hinit, hdev, hb, hseq, hacq, hstart, htrig, hdel, hr]

/-- Witness for claim C1: a fitting 2x2 frame delivered before the
controller reaches its wait still yields a successful capture. -/
theorem claim1_no_lost_wakeup_witness :
    sReady8.g_frame_data = some (List.replicate 8 0) ∧
    (capture_frame sReady8 100 dCapEarly t0).ret = 0 ∧
    (capture_frame sReady8 100 dCapEarly t0).state.g_frame_ready = true :=
  ⟨rfl,
   claim1_no_lost_wakeup sReady8 (List.replicate 8 0) fr2 FireTime.beforeWait
     100 dCapEarly t0 rfl (by decide) rfl (by decide) (by decide) (by decide)
     rfl rfl rfl rfl rfl⟩

/-- Claim C4: when the callback never fires, `capture_frame` computes its
wait deadline as now + exposure + a fixed 10 s margin with correct
nanosecond carry, returns -3 (`CaptureTimeout`), and calls
`XDTUSB_DeviceStopStreaming` exactly once. -/
theorem claim4_timeout_deadline_and_stop (s : CState) (e : Nat)
    (d : CaptureDriver) (now : Timespec)
    (hinit : s.g_initialized = true) (hdev : s.g_device ≠ none)
    (hlo : 10 ≤ e) (hhi : e ≤ 10000)
    (hseq : d.setSeqOk = true) (hacq : d.setAcqOk = true)
    (hstart : d.startOk = true) (htrig : d.triggerOk = true)
    (hdel : d.delivery = none)
    (hnow : now.tv_nsec < 1000000000) :
    (capture_frame s e d now).ret = -3 ∧
    (capture_frame s e d now).trace.count Ev.stopStreaming = 1 ∧
    (capture_frame s e d now).deadline = some (compute_deadline now e) ∧
    (compute_deadline now e).toNanos = now.toNanos + e * 1000000 + 10000000000 ∧
    (compute_deadline now e).tv_nsec < 1000000000 := by
  have hb : ¬ (e < 10 ∨ 10000 < e) := by omega
  have hcf : capture_frame s e d now =
      { ret := -3, state := { s with g_frame_ready := false }
        trace := [Ev.setSeqParams, Ev.setAcqMode, Ev.startStreaming,
                  Ev.issueSwTrigger, Ev.stopStreaming]
        deadline := some (compute_deadline now e) } := by
    simp [capture_frame, hinit, hdev, hb, hseq, hacq, hstart, htrig, hdel]
  refine ⟨by rw [hcf], by rw [hcf]; rfl, by rw [hcf], ?_, ?_⟩
  · simp only [compute_deadline]
    split_ifs with h <;> simp only [Timespec.toNanos] <;> omega
  · simp only [compute_deadline]
    split_ifs with h <;> simp <;> omega

/-- Witness for claim C4: `capture_frame(100)` with a silent driver from a
concrete clock instant with pending nanosecond carry. -/
theorem claim4_timeout_deadline_and_stop_witness :
    (10 ≤ 100 ∧ (100 : Nat) ≤ 10000) ∧
    (capture_frame sReady8 100 dCapNone { tv_sec := 5, tv_nsec := 999999999 }).ret = -3 ∧
    (capture_frame sReady8 100 dCapNone { tv_sec := 5, tv_nsec := 999999999 }).trace.count
        Ev.stopStreaming = 1 ∧
    (capture_frame sReady8 100 dCapNone { tv_sec := 5, tv_nsec := 999999999 }).deadline =
      some (compute_deadline { tv_sec := 5, tv_nsec := 999999999 } 100) ∧
    (compute_deadline { tv_sec := 5, tv_nsec := 999999999 } 100).toNanos =
      Timespec.toNanos { tv_sec := 5, tv_nsec := 999999999 } + 100 * 1000000 + 10000000000 ∧
    (compute_deadline { tv_sec := 5, tv_nsec := 999999999 } 100).tv_nsec < 1000000000 :=
  ⟨⟨by decide, by decide⟩,
   claim4_timeout_deadline_and_stop sReady8 100 dCapNone
     { tv_sec := 5, tv_nsec := 999999999 } rfl (by decide) (by decide) (by decide)
     rfl rfl rfl rfl rfl (by decide)⟩

/-- `frame_callback` on a state with no allocated buffer only records the
metadata. -/
theorem frame_callback_state_none (s : CState) (fr : Frame)
    (hd : s.g_frame_data = none) :
    (frame_callback s fr).1 =
      { s with g_frame_width := fr.width, g_frame_height := fr.height,
               g_frame_size := ((fr.width * fr.height) % 2 ^ 32) * pixelBytes } := by
  simp [frame_callback, hd]

/-- `frame_callback` when the computed size fits the capacity: copies and
sets ready. -/
theorem frame_callback_state_fit (s : CState) (b : List Nat) (fr : Frame)
    (hd : s.g_frame_data = some b)
    (hsz : ((fr.width * fr.height) % 2 ^ 32) * pixelBytes ≤ s.g_frame_capacity) :
    (frame_callback s fr).1 =
      { s with g_frame_width := fr.width, g_frame_height := fr.height,
               g_frame_size := ((fr.width * fr.height) % 2 ^ 32) * pixelBytes,
               g_frame_data := some (memcpyBytes b fr.data
                 (((fr.width * fr.height) % 2 ^ 32) * pixelBytes)),
               g_frame_ready := true } := by
  simp only [frame_callback, hd]
  rw [if_pos hsz]

/-- `frame_callback` when the computed size does not fit: records the
oversized size, copies nothing. -/
theorem frame_callback_state_nofit (s : CState) (b : List Nat) (fr : Frame)
    (hd : s.g_frame_data = some b)
    (hsz : ¬ ((fr.width * fr.height) % 2 ^ 32) * pixelBytes ≤ s.g_frame_capacity) :
    (frame_callback s fr).1 =
      { s with g_frame_width := fr.width, g_frame_height := fr.height,
               g_frame_size := ((fr.width * fr.height) % 2 ^ 32) * pixelBytes } := by
  simp only [frame_callback, hd]
  rw [if_neg hsz]

/-- `frame_callback` preserves the buffer-length invariant. -/
theorem bufLenInv_frame_callback (s : CState) (fr : Frame) (h : BufLenInv s) :
    BufLenInv (frame_callback s fr).1 := by
  cases hd : s.g_frame_data with
  | none =>
      rw [frame_callback_state_none s fr hd]
      intro buf hbuf
      simp only at hbuf
      rw [hd] at hbuf
      exact Option.noConfusion hbuf
  | some b =>
      by_cases hsz : ((fr.width * fr.height) % 2 ^ 32) * pixelBytes ≤ s.g_frame_capacity
      · rw [frame_callback_state_fit s b fr hd hsz]
        intro buf hbuf
        have hlen := h b hd
        have hb : buf = memcpyBytes b fr.data (((fr.width * fr.height) % 2 ^ 32) * pixelBytes) := by
          simpa using hbuf.symm
        subst hb
        have hle : ((fr.width * fr.height) % 2 ^ 32) * pixelBytes ≤ b.length := by
          rw [hlen]
          exact hsz
        simpa using (memcpyBytes_length b fr.data _ hle).trans hlen
      · rw [frame_callback_state_nofit s b fr hd hsz]
        intro buf hbuf
        simp only at hbuf
        rw [hd] at hbuf
        have hb : buf = b := by simpa using hbuf.symm
        subst hb
        simpa using h buf hd

/-- `init_capture_device` preserves the buffer-length invariant. -/
theorem bufLenInv_init (s : CState) (d : InitDriver) (h : BufLenInv s) :
    BufLenInv (init_capture_device s d).2.1 := by
  by_cases h1 : s.g_initialized = true
  · simpa [init_capture_device, h1] using h
  · have hdev : BufLenInv { s with g_device := some () } := fun b hb => h b hb
    by_cases h2 : d.initOk = true
    case neg => simpa [init_capture_device, h1, h2] using h
    by_cases h3 : d.pollOk = true
    case neg => simpa [init_capture_device, h1, h2, h3] using h
    by_cases h4 : d.numDevices = 0
    case pos => simpa [init_capture_device, h1, h2, h3, h4] using h
    by_cases h5 : d.openOk = true
    case neg => simpa [init_capture_device, h1, h2, h3, h4, h5] using hdev
    by_cases h6 : d.maxDimsOk = true
    case neg => simpa [init_capture_device, h1, h2, h3, h4, h5, h6] using hdev
    by_cases h7 : d.mallocOk = true
    case neg =>
      intro buf hbuf
      simp [init_capture_device, h1, h2, h3, h4, h5, h6, h7] at hbuf
    intro buf hbuf
    simp [init_capture_device, h1, h2, h3, h4, h5, h6, h7] at hbuf ⊢
    subst hbuf
    simp

/-- `capture_frame` preserves the buffer-length invariant. -/
theorem bufLenInv_capture (s : CState) (e : Nat) (d : CaptureDriver)
    (now : Timespec) (h : BufLenInv s) :
    BufLenInv (capture_frame s e d now).state := by
  have harm : BufLenInv { s with g_frame_ready := false } := fun b hb => h b hb
  by_cases hi : s.g_initialized = false ∨ s.g_device = none
  · simpa [capture_frame, hi] using h
  · by_cases he : e < 10 ∨ 10000 < e
    · simpa [capture_frame, hi, he] using h
    · by_cases h3 : d.setSeqOk = true
      case neg => simpa [capture_frame, hi, he, h3] using harm
      by_cases h4 : d.setAcqOk = true
      case neg => simpa [capture_frame, hi, he, h3, h4] using harm
      by_cases h5 : d.startOk = true
      case neg => simpa [capture_frame, hi, he, h3, h4, h5] using harm
      by_cases h6 : d.triggerOk = true
      case neg => simpa [capture_frame, hi, he, h3, h4, h5, h6] using harm
      rcases hdel : d.delivery with _ | ⟨fr, t⟩
      · simpa [capture_frame, hi, he, h3, h4, h5, h6, hdel] using harm
      · have hcb : BufLenInv (frame_callback { s with g_frame_ready := false } fr).1 :=
          bufLenInv_frame_callback _ fr harm
        cases t <;>
          by_cases hrd :
            (frame_callback { s with g_frame_ready := false } fr).1.g_frame_ready = true <;>
          simpa [capture_frame, hi, he, h3, h4, h5, h6, hdel, hrd] using hcb

/-- `cleanup_capture_device` preserves the buffer-length invariant. -/
theorem bufLenInv_cleanup (s : CState) (h : BufLenInv s) :
    BufLenInv (cleanup_capture_device s).1 := by
  by_cases hi : s.g_initialized = false
  · simpa [cleanup_capture_device, hi] using h
  · intro buf hbuf
    simp [cleanup_capture_device, hi] at hbuf

/-- Every single operation preserves the buffer-length invariant. -/
theorem bufLenInv_stepOp (s : CState) (op : Op) (h : BufLenInv s) :
    BufLenInv (stepOp s op) := by
  cases op with
  | initDev d => exact bufLenInv_init s d h
  | capture e d now => exact bufLenInv_capture s e d now h
  | callback fr => exact bufLenInv_frame_callback s fr h
  | getData pw pH pp pd ps => exact h
  | cleanup => exact bufLenInv_cleanup s h

/-- Runs of operations preserve the buffer-length invariant. -/
theorem bufLenInv_runOps (s : CState) (ops : List Op) (h : BufLenInv s) :
    BufLenInv (runOps s ops) := by
  induction ops generalizing s with
  | nil => exact h
  | cons op rest ih => exact ih (stepOp s op) (bufLenInv_stepOp s op h)

/-- Counterexample to claim C6 as stated: after a successful init
(capacity 8) followed by one oversized callback delivery (3x3 frame,
18 bytes), the reachable state has validSize (`g_frame_size`) strictly
greater than capacity, because the callback records the size before the
bounds check. -/
theorem claim6_counterexample :
    (runOps initialCState opsOversized).g_frame_capacity <
      (runOps initialCState opsOversized).g_frame_size := by
  decide

/-- Claim C6 (amended): in every state reachable by any sequence of
`init_capture_device`, `capture_frame`, `frame_callback` invocations
(including oversized deliveries), `get_frame_data` and
`cleanup_capture_device`, the allocated frame-buffer slot's length is
exactly the recorded capacity — i.e. the buffer itself is never grown,
shrunk or overrun, even though the scalar `g_frame_size` can exceed
capacity after an oversized delivery. -/
theorem claim6_buffer_length_invariant (ops : List Op) :
    BufLenInv (runOps initialCState ops) :=
  bufLenInv_runOps initialCState ops (fun buf hbuf => by
    simp [initialCState] at hbuf)

/-- Claim C2: for every callback invocation whose reported frame size
`width*height*pixelSizeBytes` exceeds the pre-allocated slot capacity, the
callback copies no bytes into the slot and leaves the ready flag false, so
the enclosing `capture_frame` returns -3 (`CaptureTimeout`), stopping
streaming exactly once, rather than overflowing the buffer.  The reported
dimensions come from the `uint16_t` fields of `xdtusb_frame_dimensions_t`
(`xdtusb.h` lines 274-275), so `width, height < 65536` covers every frame
the driver can deliver; within that range the `uint32_t` product in the
size computation never wraps. -/
theorem claim2_oversized_frame_times_out (s : CState) (fr : Frame)
    (t : FireTime) (e : Nat) (d : CaptureDriver) (now : Timespec)
    (hw : fr.width < 65536) (hh : fr.height < 65536)
    (hbig : s.g_frame_capacity < fr.width * fr.height * pixelBytes)
    (hready : s.g_frame_ready = false)
    (hinit : s.g_initialized = true) (hdev : s.g_device ≠ none)
    (hlo : 10 ≤ e) (hhi : e ≤ 10000)
    (hseq : d.setSeqOk = true) (hacq : d.setAcqOk = true)
    (hstart : d.startOk = true) (htrig : d.triggerOk = true)
    (hdel : d.delivery = some (fr, t)) :
    (frame_callback s fr).1.g_frame_data = s.g_frame_data ∧
    (frame_callback s fr).1.g_frame_ready = false ∧
    (capture_frame s e d now).ret = -3 ∧
    (capture_frame s e d now).trace.count Ev.stopStreaming = 1 := by
  have hnoovf : fr.width * fr.height < 2 ^ 32 := by
    calc fr.width * fr.height ≤ 65535 * 65535 :=
          Nat.mul_le_mul (by omega) (by omega)
      _ < 2 ^ 32 := by norm_num
  obtain ⟨hdata, hrd⟩ := frame_callback_oversized s fr hnoovf hbig
  have hb : ¬ (e < 10 ∨ 10000 < e) := by omega
  have h2 := frame_callback_oversized
    { s with g_initialized := true, g_frame_ready := false } fr hnoovf hbig
  have hr : (frame_callback
      { s with g_initialized := true, g_frame_ready := false } fr).1.g_frame_ready = false :=
    h2.2
  refine ⟨hdata, hrd.trans hready, ?_, ?_⟩
  · cases t <;>
      simp [capture_frame, hinit, hdev, hb, hseq, hacq, hstart, htrig, hdel, hr]
  · cases t <;>
      simp [capture_frame, hinit, hdev, hb, hseq, hacq, hstart, htrig, hdel, hr,
            frame_callback_trace, List.count_cons, List.count_append]

/-- Witness for claim C2: a 3x3 frame (18 bytes, within the `uint16_t`
dimension range) against the 8-byte slot is dropped and the capture times
out. -/
theorem claim2_oversized_frame_times_out_witness :
    (fr3.width < 65536 ∧ fr3.height < 65536 ∧
      sReady8.g_frame_capacity < fr3.width * fr3.height * pixelBytes) ∧
    (frame_callback sReady8 fr3).1.g_frame_data = sReady8.g_frame_data ∧
    (frame_callback sReady8 fr3).1.g_frame_ready = false ∧
    (capture_frame sReady8 100 dCapOver t0).ret = -3 ∧
    (capture_frame sReady8 100 dCapOver t0).trace.count Ev.stopStreaming = 1 :=
  ⟨⟨by decide, by decide, by decide⟩,
   claim2_oversized_frame_times_out sReady8 fr3 FireTime.duringWait 100 dCapOver t0
     (by decide) (by decide) (by decide) rfl rfl (by decide) (by decide) (by decide)
     rfl rfl rfl rfl rfl⟩

/-- Claim C7 evaluation at the failing input: after a successful
`init_capture_device` and before any capture, `get_frame_data` reports no
absence at all — it hands back a non-NULL pointer to the uninitialized
8-byte allocation together with zeroed width, height and size. -/
theorem claim7_no_absence_report :
    sAfterInit.g_frame_ready = false ∧
    get_frame_data sAfterInit true true true true true noOut =
      { width := some 0, height := some 0, pixel_size := some 2,
        data := some (some (List.replicate 8 0)), size := some 0 } :=
  ⟨rfl, rfl⟩
